import Mathlib

/-!
Verification of the genprop streaming ingestion pipeline.

This development embeds, in Lean, the parts of the pipeline that the
specification's claims are about:

* the chunked stream processors `process_csv_async`
  (services/ingestion-api/services/csv_processor.py) and
  `process_gdb_async` (services/ingestion-api/services/gdb_processor.py);
* the schema check `validate_csv_columns` (csv_processor.py);
* the publisher `publish_message` (services/shared/shared/rabbitmq.py);
* the batch tracker `update_batch_progress`, `complete_batch` and
  `fail_batch` (services/ingestion-api/services/batch_tracker.py);
* the CRS transform `transform_to_wisconsin_crs` (gdb_processor.py);
* the format validators `validate_csv_format` (csv_processor.py) and
  `validate_gdb_format` (gdb_processor.py).

Side effects (publish calls, progress updates, batch finalization) are
embedded as an explicit list of emitted events; the per-row behaviour of the
external collaborators (Pydantic validation, the queue) is abstracted as a
function from the row's position to one of the three outcomes the Python
code distinguishes (success, publish returned False, an exception caught by
the per-row `except`).
-/

namespace GenProp

/-- Outcome of processing a single row inside the per-row `try` block of
`process_csv_async` / `process_gdb_async`: the Pydantic validation succeeds
and `publish_message` returns True; validation succeeds but
`publish_message` returns False (counted as failed, line 247-251 of
csv_processor.py); or an exception is raised inside the `try` (caught at
line 253, counted as failed, no publish call happens). -/
inductive RowOutcome
  | ok
  | pubFail
  | exn
deriving DecidableEq, Repr

/-- Observable side effects of one processor run: a `publish_message` call
(carrying the message's `source_row_number`), one `update_batch_progress`
call per chunk (processed, new/successful, failed counts), the terminal
`complete_batch` call, or the terminal `fail_batch` call. -/
inductive Event
  | publish (source_row_number : Nat)
  | update (processed successful failed : Nat)
  | complete (total : Nat)
  | failBatch (message : String)
deriving DecidableEq, Repr

/-- Test for a `publish` event. -/
def Event.isPublish : Event → Bool
  | .publish _ => true
  | _ => false

/-- Test for a `complete` event. -/
def Event.isComplete : Event → Bool
  | .complete _ => true
  | _ => false

/-- Test for a `failBatch` event. -/
def Event.isFailBatch : Event → Bool
  | .failBatch _ => true
  | _ => false

/-- Progress updates carried by a list of events, in order, as
(processed, successful, failed) triples. -/
def updatesOf (evs : List Event) : List (Nat × Nat × Nat) :=
  evs.filterMap fun e =>
    match e with
    | .update p s f => some (p, s, f)
    | _ => none

/-- Splitting of a list into consecutive chunks of `cs` elements (the last
chunk may be shorter), with an explicit fuel argument so the definition is
structurally recursive. `pd.read_csv(..., chunksize=cs)` yields exactly
these chunks of the file's rows, and the GDB loop
`for start_idx in range(0, total_features, chunk_size)` with
`gdf.iloc[start_idx:end_idx]` slices the same chunks. Python raises for a
chunk size of zero, so all theorems about chunked runs assume `0 < cs`. -/
def chunksOfAux (cs : Nat) : Nat → List α → List (List α)
  | 0, _ => []
  | _ + 1, [] => []
  | fuel + 1, x :: xs => (x :: xs).take cs :: chunksOfAux cs fuel ((x :: xs).drop cs)

/-- Chunks of `cs` consecutive elements of `l`. -/
def chunksOf (cs : Nat) (l : List α) : List (List α) :=
  chunksOfAux cs l.length l

/-- Number of failed rows in one chunk: the per-row `except`/`if not success`
branches each add one to `chunk_failed`, and each row takes exactly one of
the three outcomes, so a chunk's failure count is the number of its rows
whose outcome is not `ok`. -/
def chunkFailed (o : Nat → RowOutcome) (chunk : List Nat) : Nat :=
  chunk.countP fun i => o i ≠ RowOutcome.ok

/-- One chunk of the per-row loop shared by `process_csv_async` (lines
225-257) and `process_gdb_async` (lines 267-316).  `chunk` is the list of
pandas row indices of the chunk's rows — for both readers this index is the
global 0-based position of the row in the whole file, because
`pd.read_csv(..., chunksize=...)` continues the `RangeIndex` across chunks
and the GDB path slices one `GeoDataFrame` with a global `RangeIndex`.
`num tp idx` is the `source_row_number` put into the published message
(`tp` is `total_processed` at the start of the chunk); the two processors
differ only in this formula.  Returns the emitted publish events in row
order and the chunk's `chunk_failed` counter. -/
def processChunk (num : Nat → Nat → Nat) (o : Nat → RowOutcome) (tp : Nat) :
    List Nat → List Event × Nat
  | [] => ([], 0)
  | idx :: rest =>
    let r := processChunk num o tp rest
    match o idx with
    | .ok => (.publish (num tp idx) :: r.1, r.2)
    | .pubFail => (.publish (num tp idx) :: r.1, r.2 + 1)
    | .exn => (r.1, r.2 + 1)

/-- The `source_row_number` formula of the CSV path:
`int(total_processed + idx + 1)` (csv_processor.py line 241). -/
def numberCsv (tp idx : Nat) : Nat := tp + idx + 1

/-- The `source_row_number` formula of the GDB path:
`int(idx) + 1` (gdb_processor.py line 300). -/
def numberGdb (_tp idx : Nat) : Nat := idx + 1

/-- The chunk loop of both processors: per chunk, run the per-row loop, then
issue one `update_batch_progress(processed, new=successful, failed)` call
with `chunk_processed = len(chunk)`, `chunk_successful = chunk_processed -
chunk_failed`, then advance `total_processed` and `total_failed`
(csv_processor.py lines 259-271, gdb_processor.py lines 318-331). Returns
the emitted events and the final `total_processed` and `total_failed`. -/
def runChunks (num : Nat → Nat → Nat) (o : Nat → RowOutcome) :
    List (List Nat) → Nat → Nat → List Event × Nat × Nat
  | [], tp, tf => ([], tp, tf)
  | c :: rest, tp, tf =>
    let pr := processChunk num o tp c
    let cp := c.length
    let r := runChunks num o rest (tp + cp) (tf + pr.2)
    (pr.1 ++ Event.update cp (cp - pr.2) pr.2 :: r.1, r.2)

/-- Source-type tags accepted by the ingestion pipeline. -/
inductive SourceType
  | PARCEL
  | RETR
  | DFI
deriving DecidableEq, Repr

/-- The geometry columns `validate_csv_columns` requires for PARCEL data,
already upper-cased as the code upper-cases them (csv_processor.py
lines 129-130). -/
def requiredGeometryColumns : List String := ["GEOMETRY_WKT", "GEOMETRY_TYPE"]

/-- Embedding of Python's `str.upper()` as used on column names: upper-case
every character.  (Defined over the string's character list so it is
computable by the kernel; on the ASCII column names involved it agrees with
`str.upper()`.) -/
def upperString (s : String) : String := ⟨s.data.map Char.toUpper⟩

/-- The required geometry columns that are missing from a PARCEL CSV's
column list: `required_upper - csv_columns` with `csv_columns` the
upper-cased column names (csv_processor.py lines 124-131). -/
def missingGeometryColumns (cols : List String) : List String :=
  requiredGeometryColumns.filter fun f => !(cols.map upperString).contains f

/-- The `ValueError` message raised when geometry columns are missing
(csv_processor.py lines 134-137). -/
def geometryColumnsError (missing : List String) : String :=
  "Missing required geometry columns: " ++ String.intercalate ", " missing ++
    ". PARCEL CSV must include geometry_wkt and geometry_type."

/-- Embedding of `validate_csv_columns` (csv_processor.py lines 106-143):
for PARCEL sources the two geometry columns are required, matched
case-insensitively; missing columns raise a `ValueError` naming them; for
RETR and DFI sources no column is required (the function only logs). -/
def validate_csv_columns (cols : List String) (st : SourceType) :
    Except String Unit :=
  match st with
  | .PARCEL =>
    match missingGeometryColumns cols with
    | [] => .ok ()
    | m :: ms => .error (geometryColumnsError (m :: ms))
  | _ => .ok ()

/-- Embedding of `process_csv_async` (csv_processor.py lines 146-288):
validate the first-chunk sample's columns; on a validation error the outer
`except` calls `fail_batch` with the prefixed message and re-raises, and no
chunk is ever processed; otherwise stream the file in chunks and finally
call `complete_batch(total_processed)`.  `cols` are the file's column
names, `o` gives each row's outcome, `nrows` the number of data rows and
`cs` the chunk size. -/
def process_csv_async (cols : List String) (st : SourceType)
    (o : Nat → RowOutcome) (nrows cs : Nat) : List Event :=
  match validate_csv_columns cols st with
  | .error m => [.failBatch ("CSV processing error: " ++ m)]
  | .ok _ =>
    let r := runChunks numberCsv o (chunksOf cs (List.range nrows)) 0 0
    r.1 ++ [.complete r.2.1]

/-- Embedding of `process_gdb_async` (gdb_processor.py lines 200-351): the
features of the layer are streamed in chunks with the GDB numbering
formula, then `complete_batch(total_processed)` is called.  (The read and
CRS-transform stages before the loop are not needed by the claims about the
loop; their failure would take the `fail_batch` path instead.) -/
def process_gdb_async (o : Nat → RowOutcome) (nrows cs : Nat) : List Event :=
  let r := runChunks numberGdb o (chunksOf cs (List.range nrows)) 0 0
  r.1 ++ [.complete r.2.1]

/-- The `source_row_number`s of the publish events of a run, in order. -/
def publishedNumbers (evs : List Event) : List Nat :=
  evs.filterMap fun e =>
    match e with
    | .publish n => some n
    | _ => none

/-! ### Batch tracker (services/ingestion-api/services/batch_tracker.py)

One row of the `import_batches` table, with the columns the tracker's SQL
statements read or write.  Each tracker function is embedded as the state
transformation its single `UPDATE` statement performs on the batch's row. -/

/-- The `status` column: 'processing', 'completed' or 'failed'. -/
inductive BatchStatus
  | processing
  | completed
  | failed
deriving DecidableEq, Repr

/-- One `import_batches` row (database/migrations/versions/001_layer1_tables.py
and the column lists of batch_tracker.py). -/
structure Batch where
  source_name : String
  source_type : String
  file_format : String
  file_size_bytes : Option Int
  total_records : Option Int
  status : BatchStatus
  processed_records : Int
  new_records : Int
  duplicate_records : Int
  failed_records : Int
  started_at : Nat
  completed_at : Option Nat
  error : Option String
deriving DecidableEq, Repr

/-- Embedding of `update_batch_progress` (batch_tracker.py lines 78-121):
adds the deltas to the four counters; an omitted optional delta counts as 0
(`COALESCE($n, 0)`); no other column is touched. -/
def update_batch_progress (b : Batch) (processed_count : Int)
    (new_count duplicate_count failed_count : Option Int) : Batch :=
  { b with
    processed_records := b.processed_records + processed_count
    new_records := b.new_records + new_count.getD 0
    duplicate_records := b.duplicate_records + duplicate_count.getD 0
    failed_records := b.failed_records + failed_count.getD 0 }

/-- Embedding of `complete_batch` (batch_tracker.py lines 124-152): sets
`status = 'completed'`, `completed_at = now`, and overwrites
`processed_records` with the supplied total; no other column is touched. -/
def complete_batch (b : Batch) (total_processed : Int) (now : Nat) : Batch :=
  { b with
    status := .completed
    completed_at := some now
    processed_records := total_processed }

/-- Embedding of `fail_batch` (batch_tracker.py lines 155-183): sets
`status = 'failed'`, `completed_at = now` and `error = error_message`; no
other column — in particular none of the four counters — is touched. -/
def fail_batch (b : Batch) (error_message : String) (now : Nat) : Batch :=
  { b with
    status := .failed
    completed_at := some now
    error := some error_message }

/-- The batch row the ingestion endpoint creates before processing starts
(`create_batch`, batch_tracker.py lines 18-75): status 'processing', all
counters zero, no completion time, no error. -/
def freshBatch (source_name source_type file_format : String) : Batch :=
  { source_name := source_name
    source_type := source_type
    file_format := file_format
    file_size_bytes := none
    total_records := none
    status := .processing
    processed_records := 0
    new_records := 0
    duplicate_records := 0
    failed_records := 0
    started_at := 0
    completed_at := none
    error := none }

/-- Effect of one processor event on the batch row, through the tracker
calls the processors make: a publish call does not touch the row; an update
event is `update_batch_progress(processed, new=successful, failed)` exactly
as the processors call it (csv_processor.py lines 263-268, gdb_processor.py
lines 322-327); `complete`/`failBatch` are the terminal tracker calls. -/
def applyEvent (b : Batch) : Event → Batch
  | .publish _ => b
  | .update p s f => update_batch_progress b (p : Int) (some (s : Int)) none (some (f : Int))
  | .complete t => complete_batch b (t : Int) 0
  | .failBatch m => fail_batch b m 0

/-- The batch row after a processor run's events have all been applied. -/
def applyEvents (b : Batch) (evs : List Event) : Batch :=
  evs.foldl applyEvent b

/-! ### Publisher (services/shared/shared/rabbitmq.py) -/

/-- What one delivery attempt — the body of the `try` in `publish_message`,
i.e. `get_rabbitmq_connection()`, `json.dumps(message)` and
`channel.basic_publish(...)` — does: succeed, or raise some `Exception`.
Delivery failures (broker/channel errors) and programming errors such as a
non-serializable message (`json.dumps` raising `TypeError`) are listed
separately so that theorems can speak about both; the code's
`except Exception` catches either one. -/
inductive AttemptResult
  | success
  | deliveryError (msg : String)
  | serializationError (msg : String)
deriving DecidableEq, Repr

/-- Embedding of the retry loop of `publish_message` (rabbitmq.py lines
166-194), with the loop counter split into remaining iterations and the
current attempt index `i` so the recursion is structural.  Returns the
function's outcome (`Except.ok` for a normal `return`; an `Except.error`
would model an exception escaping the function, which no branch produces),
the number of attempts made, and the delays passed to `time.sleep`, in
order: after a failed attempt `i` that is not the last, the code sleeps
`retry_delay * (attempt + 1)` and retries; a failure on the last attempt
returns False; the `return False` after the loop is reached only when
`max_retries == 0`. -/
def publishLoop (attempt : Nat → AttemptResult) (retry_delay : ℚ) :
    Nat → Nat → Except String Bool × Nat × List ℚ
  | 0, i => (.ok false, i, [])
  | 1, i =>
    match attempt i with
    | .success => (.ok true, i + 1, [])
    | _ => (.ok false, i + 1, [])
  | r + 2, i =>
    match attempt i with
    | .success => (.ok true, i + 1, [])
    | _ =>
      ((publishLoop attempt retry_delay (r + 1) (i + 1)).1,
        (publishLoop attempt retry_delay (r + 1) (i + 1)).2.1,
        retry_delay * (i + 1) :: (publishLoop attempt retry_delay (r + 1) (i + 1)).2.2)

/-- Embedding of `publish_message(queue, message, max_retries, retry_delay)`
(rabbitmq.py lines 136-194).  The queue name and message body do not affect
the control flow; the behaviour of each attempt (including a
serialization failure of the message) is the `attempt` function. -/
def publish_message (attempt : Nat → AttemptResult) (max_retries : Nat)
    (retry_delay : ℚ) : Except String Bool × Nat × List ℚ :=
  publishLoop attempt retry_delay max_retries 0

/-! ### CRS transform (gdb_processor.py lines 170-197) -/

/-- The fixed target CRS `WISCONSIN_CRS` (gdb_processor.py line 32). -/
def WISCONSIN_CRS : String := "EPSG:3071"

/-- A GeoDataFrame as the transform sees it: an optional declared CRS and
the geometry column, over an abstract geometry type `G`. -/
structure GeoDataFrame (G : Type) where
  crs : Option String
  geoms : List G
deriving DecidableEq, Repr

/-- `gdf.set_crs(crs, inplace=True)`: declare a CRS without touching any
geometry. -/
def GeoDataFrame.set_crs (g : GeoDataFrame G) (c : String) : GeoDataFrame G :=
  { g with crs := some c }

/-- `gdf.to_crs(target)`: reproject every geometry from the declared CRS to
the target and declare the target.  `reproject src tgt` is the abstract
per-geometry reprojection; geopandas requires a declared source CRS, which
`transform_to_wisconsin_crs` guarantees before calling this. -/
def GeoDataFrame.to_crs (reproject : String → String → G → G)
    (g : GeoDataFrame G) (target : String) : GeoDataFrame G :=
  match g.crs with
  | some c => { crs := some target, geoms := g.geoms.map (reproject c target) }
  | none => g

/-- Embedding of `transform_to_wisconsin_crs` (gdb_processor.py lines
170-197): no declared CRS → set EPSG:3071 without reprojecting (logged as a
warning); already EPSG:3071 → returned unchanged; otherwise → `to_crs` to
EPSG:3071. -/
def transform_to_wisconsin_crs (reproject : String → String → G → G)
    (gdf : GeoDataFrame G) : GeoDataFrame G :=
  match gdf.crs with
  | none => gdf.set_crs WISCONSIN_CRS
  | some current_crs =>
    if current_crs = WISCONSIN_CRS ∨ current_crs = "EPSG:3071" then gdf
    else gdf.to_crs reproject WISCONSIN_CRS

/-! ### Row normalization and message raw_data (csv_processor.py lines 227-243) -/

/-- One cell of a row as pandas hands it to the loop: `read_csv` is called
with `dtype=str` and `keep_default_na=False`, so a present value is a
string and a missing value is NA (`pd.notna(v)` false). -/
inductive Cell
  | na
  | val (s : String)
deriving DecidableEq, Repr

/-- The per-cell normalization of the `row_dict` comprehension
(csv_processor.py lines 228-231): a value that is NA or the empty string
becomes None; every other value stays the string it is. -/
def normalizeCell : Cell → Option String
  | .na => none
  | .val s => if s = "" then none else some s

/-- The `row_dict` built from one row: same keys, normalized values. -/
def normalizeRow (row : List (String × Cell)) : List (String × Option String) :=
  row.map fun kv => (kv.1, normalizeCell kv.2)

/-- `record.model_dump(exclude_none=True)` (csv_processor.py line 242) on a
record's field map: the None-valued fields are omitted. -/
def modelDumpExcludeNone (fields : List (String × Option String)) :
    List (String × Option String) :=
  fields.filter fun kv => kv.2.isSome

/-! ### Format validators (csv_processor.py lines 323-371,
gdb_processor.py lines 354-387) -/

/-- What reading the first 10 rows of the candidate CSV file yields inside
`validate_csv_format`'s `try`: a table with some number of data rows and
columns, or one of the exceptions the function handles
(`pd.errors.EmptyDataError`, `pd.errors.ParserError`, any other
`Exception` — including one from `stat` or `detect_encoding`). -/
inductive CsvParseOutcome
  | table (nrows ncols : Nat)
  | emptyDataError
  | parserError (msg : String)
  | otherError (msg : String)
deriving DecidableEq, Repr

/-- A candidate CSV file as `validate_csv_format` observes it: its size in
bytes and what parsing its head yields. -/
structure CsvFile where
  sizeBytes : Nat
  parse : CsvParseOutcome
deriving DecidableEq, Repr

/-- Embedding of Python's `str(e)[:100]` message truncation: the first 100
characters of the string.  (Defined over the string's character list so it
is computable by the kernel.) -/
def truncate100 (s : String) : String := ⟨s.data.take 100⟩

/-- Embedding of `validate_csv_format` (csv_processor.py lines 323-371):
returns the `(is_valid, error_message)` pair, with the distinct reasons for
an empty file, zero data rows, zero columns, and the handled parse
exceptions (exception messages truncated to 100 characters). -/
def validate_csv_format (f : CsvFile) : Bool × Option String :=
  if f.sizeBytes = 0 then (false, some "File is empty (0 bytes)")
  else
    match f.parse with
    | .table nrows ncols =>
      if nrows = 0 then (false, some "CSV contains no data rows")
      else if ncols = 0 then (false, some "CSV contains no columns")
      else (true, none)
    | .emptyDataError => (false, some "File contains no data")
    | .parserError m => (false, some ("Invalid CSV format: " ++ truncate100 m))
    | .otherError m => (false, some ("Validation error: " ++ truncate100 m))

/-- A candidate GDB path as `validate_gdb_format` observes it: missing, not
a directory, or a directory whose `fiona.listlayers` call yields a layer
list or raises. -/
inductive GdbPathState
  | missing
  | notDirectory
  | layers (ls : List String)
  | listLayersError (msg : String)
deriving DecidableEq, Repr

/-- Embedding of `validate_gdb_format` (gdb_processor.py lines 354-387):
returns a bare boolean — true exactly when the path exists, is a directory,
and `fiona.listlayers` yields a non-empty layer list; every failure is
reported as plain `False` with no reason value. -/
def validate_gdb_format : GdbPathState → Bool
  | .missing => false
  | .notDirectory => false
  | .layers ls => !ls.isEmpty
  | .listLayersError _ => false

/-! ### Accounting sums over a run's progress updates -/

/-- Total of the processed counts reported across all progress updates. -/
def sumProcessed (evs : List Event) : Nat :=
  ((updatesOf evs).map fun u => u.1).sum

/-- Total of the successful counts reported across all progress updates. -/
def sumSuccessful (evs : List Event) : Nat :=
  ((updatesOf evs).map fun u => u.2.1).sum

/-- Total of the failed counts reported across all progress updates. -/
def sumFailed (evs : List Event) : Nat :=
  ((updatesOf evs).map fun u => u.2.2).sum

/-- The update triple a chunk contributes:
(chunk_processed, chunk_successful, chunk_failed). -/
def chunkUpdate (o : Nat → RowOutcome) (c : List Nat) : Nat × Nat × Nat :=
  (c.length, c.length - chunkFailed o c, chunkFailed o c)

/-- The event trace of one successful streaming run: the chunk loop over the
chunks of the file's rows starting from `total_processed = 0`, followed by
the one `complete_batch(total_processed)` call.  Both processors produce
exactly this trace (after a passed validation, for the CSV path), differing
only in the numbering formula `num`. -/
def processorRun (num : Nat → Nat → Nat) (o : Nat → RowOutcome)
    (nrows cs : Nat) : List Event :=
  (runChunks num o (chunksOf cs (List.range nrows)) 0 0).1 ++
    [Event.complete (runChunks num o (chunksOf cs (List.range nrows)) 0 0).2.1]

/-! ### Lemmas about the chunk loop -/

theorem processChunk_snd (num : Nat → Nat → Nat) (o : Nat → RowOutcome)
    (tp : Nat) (c : List Nat) : (processChunk num o tp c).2 = chunkFailed o c := by
  induction c with
  | nil => rfl
  | cons idx rest ih =>
    simp only [processChunk, chunkFailed, List.countP_cons]
    cases h : o idx <;> simp [h, ih, chunkFailed]

theorem chunkFailed_le (o : Nat → RowOutcome) (c : List Nat) :
    chunkFailed o c ≤ c.length :=
  List.countP_le_length _

theorem chunkFailed_of_all_fail (o : Nat → RowOutcome) (c : List Nat)
    (h : ∀ i, o i ≠ .ok) : chunkFailed o c = c.length := by
  rw [chunkFailed, List.countP_eq_length]
  intro i _
  simpa using h i

theorem processChunk_mem (num : Nat → Nat → Nat) (o : Nat → RowOutcome)
    (tp : Nat) (c : List Nat) (e : Event) (he : e ∈ (processChunk num o tp c).1) :
    ∃ n, e = .publish n := by
  induction c with
  | nil => simp [processChunk] at he
  | cons idx rest ih =>
    simp only [processChunk] at he
    cases h : o idx <;> simp [h] at he <;>
      first
      | exact he.elim (fun h' => ⟨_, h'⟩) ih
      | exact ih he

theorem updatesOf_processChunk (num : Nat → Nat → Nat) (o : Nat → RowOutcome)
    (tp : Nat) (c : List Nat) : updatesOf (processChunk num o tp c).1 = [] := by
  rw [updatesOf, List.filterMap_eq_nil_iff]
  intro e he
  obtain ⟨n, rfl⟩ := processChunk_mem num o tp c e he
  rfl

theorem runChunks_total (num : Nat → Nat → Nat) (o : Nat → RowOutcome) :
    ∀ (chunks : List (List Nat)) (tp tf : Nat),
      (runChunks num o chunks tp tf).2.1 = tp + (chunks.map List.length).sum := by
  intro chunks
  induction chunks with
  | nil => intro tp tf; simp [runChunks]
  | cons c rest ih =>
    intro tp tf
    simp only [runChunks, List.map_cons, List.sum_cons]
    rw [ih]
    omega

theorem updatesOf_runChunks (num : Nat → Nat → Nat) (o : Nat → RowOutcome) :
    ∀ (chunks : List (List Nat)) (tp tf : Nat),
      updatesOf (runChunks num o chunks tp tf).1 = chunks.map (chunkUpdate o) := by
  intro chunks
  induction chunks with
  | nil => intro tp tf; simp [runChunks, updatesOf]
  | cons c rest ih =>
    intro tp tf
    simp only [runChunks, List.map_cons]
    rw [updatesOf, List.filterMap_append, ← updatesOf, ← updatesOf,
      updatesOf_processChunk]
    simp only [List.nil_append, updatesOf, List.filterMap_cons]
    rw [← updatesOf, ih, processChunk_snd]
    rfl

theorem runChunks_mem (num : Nat → Nat → Nat) (o : Nat → RowOutcome) :
    ∀ (chunks : List (List Nat)) (tp tf : Nat) (e : Event),
      e ∈ (runChunks num o chunks tp tf).1 →
      e.isComplete = false ∧ e.isFailBatch = false := by
  intro chunks
  induction chunks with
  | nil => intro tp tf e he; simp [runChunks] at he
  | cons c rest ih =>
    intro tp tf e he
    simp only [runChunks, List.mem_append, List.mem_cons] at he
    rcases he with he | he | he
    · obtain ⟨n, rfl⟩ := processChunk_mem num o tp c e he
      exact ⟨rfl, rfl⟩
    · subst he; exact ⟨rfl, rfl⟩
    · exact ih _ _ e he

/-! ### Lemmas about chunking -/

theorem chunksOfAux_sum_length (cs : Nat) (hcs : 0 < cs) :
    ∀ (fuel : Nat) (l : List α), l.length ≤ fuel →
      ((chunksOfAux cs fuel l).map List.length).sum = l.length := by
  intro fuel
  induction fuel with
  | zero =>
    intro l hl
    rw [Nat.le_zero, List.length_eq_zero] at hl
    subst hl; rfl
  | succ fuel ih =>
    intro l hl
    match l with
    | [] => rfl
    | x :: xs =>
      simp only [chunksOfAux, List.map_cons, List.sum_cons]
      rw [ih ((x :: xs).drop cs)
        (by simp only [List.length_drop, List.length_cons] at hl ⊢; omega)]
      simp only [List.length_take, List.length_drop]
      simp only [List.length_cons] at hl ⊢
      omega

theorem chunksOf_sum_length (cs : Nat) (hcs : 0 < cs) (l : List α) :
    ((chunksOf cs l).map List.length).sum = l.length :=
  chunksOfAux_sum_length cs hcs l.length l le_rfl

/-! ### Lemmas about applying a run's events to the batch row -/

theorem applyEvents_append (b : Batch) (l₁ l₂ : List Event) :
    applyEvents b (l₁ ++ l₂) = applyEvents (applyEvents b l₁) l₂ :=
  List.foldl_append ..

theorem applyEvents_failed_records :
    ∀ (evs : List Event) (b : Batch),
      (applyEvents b evs).failed_records = b.failed_records + (sumFailed evs : Int) := by
  intro evs
  induction evs with
  | nil => intro b; simp [applyEvents, sumFailed, updatesOf]
  | cons e rest ih =>
    intro b
    rw [applyEvents, List.foldl_cons, ← applyEvents, ih]
    cases e <;>
      · simp [applyEvent, sumFailed, updatesOf, update_batch_progress,
          complete_batch, fail_batch, List.filterMap_cons]
        try push_cast
        try ring

/-! ### Lemmas about a full successful run -/

theorem updatesOf_append (l₁ l₂ : List Event) :
    updatesOf (l₁ ++ l₂) = updatesOf l₁ ++ updatesOf l₂ :=
  List.filterMap_append ..

theorem process_csv_async_ok (cols : List String) (st : SourceType)
    (o : Nat → RowOutcome) (nrows cs : Nat)
    (hval : validate_csv_columns cols st = .ok ()) :
    process_csv_async cols st o nrows cs = processorRun numberCsv o nrows cs := by
  rw [process_csv_async, hval]
  rfl

theorem process_gdb_async_eq (o : Nat → RowOutcome) (nrows cs : Nat) :
    process_gdb_async o nrows cs = processorRun numberGdb o nrows cs :=
  rfl

theorem updatesOf_processorRun (num : Nat → Nat → Nat) (o : Nat → RowOutcome)
    (nrows cs : Nat) :
    updatesOf (processorRun num o nrows cs) =
      (chunksOf cs (List.range nrows)).map (chunkUpdate o) := by
  rw [processorRun, updatesOf_append, updatesOf_runChunks]
  simp [updatesOf]

theorem sum_chunkUpdate_successful_failed (o : Nat → RowOutcome)
    (chunks : List (List Nat)) :
    ((chunks.map (chunkUpdate o)).map fun u => u.2.1).sum +
        ((chunks.map (chunkUpdate o)).map fun u => u.2.2).sum =
      (chunks.map List.length).sum := by
  induction chunks with
  | nil => rfl
  | cons c rest ih =>
    simp only [List.map_cons, List.sum_cons, chunkUpdate]
    have := chunkFailed_le o c
    omega

theorem complete_mem_processorRun (num : Nat → Nat → Nat) (o : Nat → RowOutcome)
    (nrows cs : Nat) (t : Nat)
    (ht : Event.complete t ∈ processorRun num o nrows cs) :
    t = ((chunksOf cs (List.range nrows)).map List.length).sum := by
  rw [processorRun] at ht
  rcases List.mem_append.mp ht with h | h
  · exact absurd (runChunks_mem num o _ 0 0 _ h).1 (by simp [Event.isComplete])
  · simp only [List.mem_singleton, Event.complete.injEq] at h
    rw [h, runChunks_total]
    simp

theorem countP_complete_processorRun (num : Nat → Nat → Nat)
    (o : Nat → RowOutcome) (nrows cs : Nat) :
    (processorRun num o nrows cs).countP Event.isComplete = 1 := by
  rw [processorRun, List.countP_append]
  have h0 : (runChunks num o (chunksOf cs (List.range nrows)) 0 0).1.countP
      Event.isComplete = 0 := by
    rw [List.countP_eq_zero]
    intro e he
    simp [(runChunks_mem num o _ 0 0 e he).1]
  rw [h0]
  rfl

theorem countP_failBatch_processorRun (num : Nat → Nat → Nat)
    (o : Nat → RowOutcome) (nrows cs : Nat) :
    (processorRun num o nrows cs).countP Event.isFailBatch = 0 := by
  rw [processorRun, List.countP_append, List.countP_eq_zero.mpr, List.countP_eq_zero.mpr]
  · intro e he
    simp only [List.mem_singleton] at he
    simp [he, Event.isFailBatch]
  · intro e he
    simp [(runChunks_mem num o _ 0 0 e he).2]

theorem status_processorRun (num : Nat → Nat → Nat) (o : Nat → RowOutcome)
    (nrows cs : Nat) (b : Batch) :
    (applyEvents b (processorRun num o nrows cs)).status = .completed := by
  rw [processorRun, applyEvents_append]
  simp [applyEvents, applyEvent, complete_batch]

theorem failed_records_processorRun (num : Nat → Nat → Nat)
    (o : Nat → RowOutcome) (nrows cs : Nat) (b : Batch) :
    (applyEvents b (processorRun num o nrows cs)).failed_records =
      b.failed_records +
        (((chunksOf cs (List.range nrows)).map (chunkFailed o)).sum : Int) := by
  rw [applyEvents_failed_records]
  congr 2
  rw [sumFailed, updatesOf_processorRun, List.map_map]
  rfl

/-! ### Lemmas about the publisher's retry loop -/

theorem publishLoop_spec (attempt : Nat → AttemptResult) (d : ℚ) :
    ∀ (rem i : Nat),
      (∃ b, (publishLoop attempt d rem i).1 = .ok b)
      ∧ ((publishLoop attempt d rem i).1 = .ok false →
          (publishLoop attempt d rem i).2.1 = i + rem
          ∧ ∀ j, i ≤ j → j < i + rem → attempt j ≠ .success)
      ∧ ((publishLoop attempt d rem i).1 = .ok true →
          ∃ j, i ≤ j ∧ j < i + rem ∧ attempt j = .success) := by
  intro rem
  induction rem with
  | zero =>
    intro i
    refine ⟨⟨false, rfl⟩, fun _ => ⟨rfl, fun j hj hj' => absurd hj' (by omega)⟩, ?_⟩
    intro h
    simp [publishLoop] at h
  | succ rem ih =>
    intro i
    cases ha : attempt i with
    | success =>
      cases rem <;>
        exact ⟨⟨true, by simp [publishLoop, ha]⟩,
          fun h => by simp [publishLoop, ha] at h,
          fun _ => ⟨i, le_rfl, by omega, ha⟩⟩
    | deliveryError m =>
      cases rem with
      | zero =>
        refine ⟨⟨false, by simp [publishLoop, ha]⟩, ?_, ?_⟩
        · intro _
          refine ⟨by simp [publishLoop, ha], fun j hj hj' => ?_⟩
          have : j = i := by omega
          simp [this, ha]
        · intro h
          simp [publishLoop, ha] at h
      | succ r =>
        have hrec := ih (i + 1)
        refine ⟨?_, ?_, ?_⟩
        · obtain ⟨b, hb⟩ := hrec.1
          exact ⟨b, by simp only [publishLoop, ha]; exact hb⟩
        · intro h
          simp only [publishLoop, ha] at h ⊢
          obtain ⟨hn, hall⟩ := hrec.2.1 h
          refine ⟨by rw [hn]; omega, fun j hj hj' => ?_⟩
          rcases Nat.eq_or_lt_of_le hj with rfl | hj
          · simp [ha]
          · exact hall j hj (by omega)
        · intro h
          simp only [publishLoop, ha] at h
          obtain ⟨j, hj₁, hj₂, hj₃⟩ := hrec.2.2 h
          exact ⟨j, by omega, by omega, hj₃⟩
    | serializationError m =>
      cases rem with
      | zero =>
        refine ⟨⟨false, by simp [publishLoop, ha]⟩, ?_, ?_⟩
        · intro _
          refine ⟨by simp [publishLoop, ha], fun j hj hj' => ?_⟩
          have : j = i := by omega
          simp [this, ha]
        · intro h
          simp [publishLoop, ha] at h
      | succ r =>
        have hrec := ih (i + 1)
        refine ⟨?_, ?_, ?_⟩
        · obtain ⟨b, hb⟩ := hrec.1
          exact ⟨b, by simp only [publishLoop, ha]; exact hb⟩
        · intro h
          simp only [publishLoop, ha] at h ⊢
          obtain ⟨hn, hall⟩ := hrec.2.1 h
          refine ⟨by rw [hn]; omega, fun j hj hj' => ?_⟩
          rcases Nat.eq_or_lt_of_le hj with rfl | hj
          · simp [ha]
          · exact hall j hj (by omega)
        · intro h
          simp only [publishLoop, ha] at h
          obtain ⟨j, hj₁, hj₂, hj₃⟩ := hrec.2.2 h
          exact ⟨j, by omega, by omega, hj₃⟩

/-! ### Shared helper lemmas for the claims about full runs -/

theorem processorRun_accounting (num : Nat → Nat → Nat) (o : Nat → RowOutcome)
    (nrows cs : Nat) :
    (∀ u ∈ updatesOf (processorRun num o nrows cs),
      u.1 = u.2.1 + u.2.2 ∧ u.2.2 ≤ u.1)
    ∧ ∀ t, Event.complete t ∈ processorRun num o nrows cs →
        t = sumSuccessful (processorRun num o nrows cs) +
            sumFailed (processorRun num o nrows cs)
        ∧ t = sumProcessed (processorRun num o nrows cs) := by
  constructor
  · intro u hu
    rw [updatesOf_processorRun] at hu
    obtain ⟨c, hc, rfl⟩ := List.mem_map.mp hu
    have := chunkFailed_le o c
    refine ⟨?_, ?_⟩ <;> simp only [chunkUpdate] <;> omega
  · intro t ht
    have hts := complete_mem_processorRun num o nrows cs t ht
    refine ⟨?_, ?_⟩
    · rw [hts, sumSuccessful, sumFailed, updatesOf_processorRun,
        sum_chunkUpdate_successful_failed]
    · rw [hts, sumProcessed, updatesOf_processorRun, List.map_map]
      rfl

theorem processorRun_all_fail (num : Nat → Nat → Nat) (o : Nat → RowOutcome)
    (nrows cs : Nat) (b : Batch) (hcs : 0 < cs)
    (hfail : ∀ i, o i ≠ RowOutcome.ok) :
    (applyEvents b (processorRun num o nrows cs)).failed_records =
      b.failed_records + nrows
    ∧ Event.complete nrows ∈ processorRun num o nrows cs := by
  have hmapeq : (chunksOf cs (List.range nrows)).map (chunkFailed o) =
      (chunksOf cs (List.range nrows)).map List.length :=
    List.map_congr_left fun c _ => chunkFailed_of_all_fail o c hfail
  have hsum : ((chunksOf cs (List.range nrows)).map List.length).sum = nrows := by
    rw [chunksOf_sum_length cs hcs]
    exact List.length_range nrows
  constructor
  · rw [failed_records_processorRun, hmapeq, hsum]
  · rw [processorRun]
    refine List.mem_append_right _ ?_
    rw [List.mem_singleton, runChunks_total]
    simp [hsum]

/-! ### The claims -/

/-- Claim C1.  The claim states that for every input stream and chunk size,
the `source_row_number` values of the published messages form a contiguous,
strictly increasing sequence starting at 1 across the whole stream.  This
theorem evaluates both processors on a 4-row stream (every row valid and
published) with chunk size 2: the GDB path emits 1,2,3,4 as claimed, but
the CSV path emits 1,2,5,6 — after the first chunk, the pandas global row
index `idx` and the accumulated `total_processed` are both counted in
`total_processed + idx + 1`, so the emitted numbers jump and the claimed
invariant fails on the CSV path. -/
theorem C1_csv_row_numbers_not_contiguous :
    publishedNumbers (process_csv_async ["GEOMETRY_WKT", "GEOMETRY_TYPE"]
        SourceType.PARCEL (fun _ => RowOutcome.ok) 4 2) = [1, 2, 5, 6]
    ∧ publishedNumbers (process_csv_async ["GEOMETRY_WKT", "GEOMETRY_TYPE"]
        SourceType.PARCEL (fun _ => RowOutcome.ok) 4 2) ≠
      List.range' 1 (publishedNumbers (process_csv_async ["GEOMETRY_WKT", "GEOMETRY_TYPE"]
        SourceType.PARCEL (fun _ => RowOutcome.ok) 4 2)).length
    ∧ publishedNumbers (process_gdb_async (fun _ => RowOutcome.ok) 4 2) =
      List.range' 1 4 := by
  decide

/-- Claim C2.  For every parcel-type CSV stream whose sample columns lack
the geometry_wkt column under case-insensitive matching, processing is
rejected before any message is published: the run makes zero
`publish_message` calls, its only event is the `fail_batch` call carrying
the validator's message, that message names the missing geometry columns,
and every column the message names is indeed absent. -/
theorem C2_parcel_schema_gate (cols : List String) (o : Nat → RowOutcome)
    (nrows cs : Nat) (hw : "GEOMETRY_WKT" ∉ cols.map upperString) :
    (process_csv_async cols .PARCEL o nrows cs).countP Event.isPublish = 0
    ∧ process_csv_async cols .PARCEL o nrows cs =
        [.failBatch ("CSV processing error: " ++
          geometryColumnsError (missingGeometryColumns cols))]
    ∧ "GEOMETRY_WKT" ∈ missingGeometryColumns cols
    ∧ ∀ c ∈ missingGeometryColumns cols, c ∉ cols.map upperString := by
  have hmem : "GEOMETRY_WKT" ∈ missingGeometryColumns cols := by
    simp only [missingGeometryColumns, requiredGeometryColumns, List.mem_filter,
      List.mem_cons, List.mem_singleton, true_or, true_and]
    simpa using hw
  have hval : validate_csv_columns cols .PARCEL =
      .error (geometryColumnsError (missingGeometryColumns cols)) := by
    rw [validate_csv_columns]
    cases h : missingGeometryColumns cols with
    | nil => rw [h] at hmem; simp at hmem
    | cons m ms => rfl
  have hev : process_csv_async cols .PARCEL o nrows cs =
      [.failBatch ("CSV processing error: " ++
        geometryColumnsError (missingGeometryColumns cols))] := by
    rw [process_csv_async, hval]
  refine ⟨by rw [hev]; rfl, hev, hmem, ?_⟩
  intro c hc
  have := (List.mem_filter.mp hc).2
  simpa using this

/-- Claim C2, witness: a parcel stream with columns PARCELID and
GEOMETRY_TYPE (so only GEOMETRY_WKT is missing) publishes nothing, and the
validator's missing-column list contains GEOMETRY_WKT. -/
theorem C2_parcel_schema_gate_witness :
    (process_csv_async ["PARCELID", "GEOMETRY_TYPE"] .PARCEL
        (fun _ => RowOutcome.ok) 3 2).countP Event.isPublish = 0
    ∧ "GEOMETRY_WKT" ∈ missingGeometryColumns ["PARCELID", "GEOMETRY_TYPE"]
    ∧ missingGeometryColumns ["PARCELID", "GEOMETRY_TYPE"] = ["GEOMETRY_WKT"] :=
  ⟨(C2_parcel_schema_gate ["PARCELID", "GEOMETRY_TYPE"]
      (fun _ => RowOutcome.ok) 3 2 (by decide)).1,
    (C2_parcel_schema_gate ["PARCELID", "GEOMETRY_TYPE"]
      (fun _ => RowOutcome.ok) 3 2 (by decide)).2.2.1,
    by decide⟩

/-- Claim C3.  For every stream on either path, every progress update
reports `chunk_processed = chunk_successful + chunk_failed` with the
failure count never exceeding the processed count (at most one failure per
record), and the total reported at completion equals the sum of the
per-chunk successful counts plus the sum of the per-chunk failed counts
(and equals the sum of the processed counts). -/
theorem C3_progress_accounting (cols : List String) (st : SourceType)
    (o : Nat → RowOutcome) (nrows cs : Nat) :
    ((∀ u ∈ updatesOf (process_csv_async cols st o nrows cs),
        u.1 = u.2.1 + u.2.2 ∧ u.2.2 ≤ u.1)
      ∧ ∀ t, Event.complete t ∈ process_csv_async cols st o nrows cs →
          t = sumSuccessful (process_csv_async cols st o nrows cs) +
              sumFailed (process_csv_async cols st o nrows cs)
          ∧ t = sumProcessed (process_csv_async cols st o nrows cs))
    ∧ ((∀ u ∈ updatesOf (process_gdb_async o nrows cs),
        u.1 = u.2.1 + u.2.2 ∧ u.2.2 ≤ u.1)
      ∧ ∀ t, Event.complete t ∈ process_gdb_async o nrows cs →
          t = sumSuccessful (process_gdb_async o nrows cs) +
              sumFailed (process_gdb_async o nrows cs)
          ∧ t = sumProcessed (process_gdb_async o nrows cs)) := by
  constructor
  · cases hv : validate_csv_columns cols st with
    | error e =>
      rw [process_csv_async, hv]
      constructor
      · intro u hu
        simp [updatesOf] at hu
      · intro t ht
        simp at ht
    | ok v =>
      cases v
      rw [process_csv_async_ok cols st o nrows cs hv]
      exact processorRun_accounting numberCsv o nrows cs
  · rw [process_gdb_async_eq]
    exact processorRun_accounting numberGdb o nrows cs

/-- Claim C3, witness: a 3-row RETR stream with chunk size 2 and every row
succeeding reports the update (2, 2, 0), whose counts balance, and
completes with total 3, which equals successes plus failures. -/
theorem C3_progress_accounting_witness :
    (3 = sumSuccessful (process_csv_async ["A"] .RETR (fun _ => RowOutcome.ok) 3 2) +
        sumFailed (process_csv_async ["A"] .RETR (fun _ => RowOutcome.ok) 3 2))
    ∧ (2 : Nat) = 2 + 0 :=
  ⟨((C3_progress_accounting ["A"] .RETR (fun _ => RowOutcome.ok) 3 2).1.2
      3 (by decide)).1,
    ((C3_progress_accounting ["A"] .RETR (fun _ => RowOutcome.ok) 3 2).1.1
      (2, 2, 0) (by decide)).1⟩

/-- Claim C4.  `publish_message` never lets an exception raised by an
attempt escape (its outcome is a normal boolean return for every attempt
behaviour, including a non-serializable message, since the per-attempt
`except Exception` catches everything raised inside the attempt); it
returns false only after making exactly `max_retries` attempts none of
which succeeded; and it returns true only when some attempt within the
bound succeeded. -/
theorem C4_publish_retry_contract (attempt : Nat → AttemptResult)
    (max_retries : Nat) (retry_delay : ℚ) :
    (∃ b, (publish_message attempt max_retries retry_delay).1 = .ok b)
    ∧ ((publish_message attempt max_retries retry_delay).1 = .ok false →
        (publish_message attempt max_retries retry_delay).2.1 = max_retries
        ∧ ∀ i < max_retries, attempt i ≠ .success)
    ∧ ((publish_message attempt max_retries retry_delay).1 = .ok true →
        ∃ i < max_retries, attempt i = .success) := by
  have h := publishLoop_spec attempt retry_delay max_retries 0
  refine ⟨h.1, fun hf => ?_, fun ht => ?_⟩
  · obtain ⟨hn, hall⟩ := h.2.1 hf
    exact ⟨by simpa using hn, fun i hi => hall i (Nat.zero_le i) (by omega)⟩
  · obtain ⟨j, _, hj₂, hj₃⟩ := h.2.2 ht
    exact ⟨j, by omega, hj₃⟩

/-- Claim C4, witness: a message whose serialization fails on every attempt
makes the default 3 attempts, returns false rather than raising, and its
first attempt indeed did not succeed. -/
theorem C4_publish_retry_contract_witness :
    (publish_message (fun _ => AttemptResult.serializationError "boom") 3 1).2.1 = 3
    ∧ (fun _ => AttemptResult.serializationError "boom") 0 ≠ AttemptResult.success :=
  ⟨((C4_publish_retry_contract (fun _ => AttemptResult.serializationError "boom")
      3 1).2.1 rfl).1,
    ((C4_publish_retry_contract (fun _ => AttemptResult.serializationError "boom")
      3 1).2.1 rfl).2 0 (by decide)⟩

/-- Claim C5.  If the delivery attempt fails exactly twice and then
succeeds, `publish_message` with the default bound of 3 returns true after
exactly 3 attempts, having slept `retry_delay * 1` after the first failure
and `retry_delay * 2` after the second. -/
theorem C5_publish_retry_backoff (attempt : Nat → AttemptResult)
    (retry_delay : ℚ) (h0 : attempt 0 ≠ .success) (h1 : attempt 1 ≠ .success)
    (h2 : attempt 2 = .success) :
    publish_message attempt 3 retry_delay =
      (.ok true, 3, [retry_delay * 1, retry_delay * 2]) := by
  cases ha : attempt 0 <;> cases hb : attempt 1 <;>
    first
    | exact absurd ha h0
    | exact absurd hb h1
    | (simp [publish_message, publishLoop, ha, hb, h2]; norm_num)

/-- Claim C5, witness: the attempt function that fails twice and then
succeeds, with a delay of 1, returns true after 3 attempts with sleeps
1 * 1 and 1 * 2. -/
theorem C5_publish_retry_backoff_witness :
    publish_message
        (fun i => if i < 2 then AttemptResult.deliveryError "down"
          else AttemptResult.success) 3 1 =
      (.ok true, 3, [1 * 1, 1 * 2]) :=
  C5_publish_retry_backoff
    (fun i => if i < 2 then AttemptResult.deliveryError "down"
      else AttemptResult.success)
    1 (by decide) (by decide) (by decide)

/-- Claim C6.  A stream in which every row fails (its validation or publish
raises, or publish reports failure) still runs to exhaustion on both paths:
exactly one `complete_batch` call, no `fail_batch` call, the batch ends
with status completed, its failed counter grows by the total number of
rows, and the finalize call reports the full row count as processed. -/
theorem C6_all_rows_fail_stream_completes (cols : List String)
    (st : SourceType) (o : Nat → RowOutcome) (nrows cs : Nat) (b : Batch)
    (hcs : 0 < cs) (hfail : ∀ i, o i ≠ RowOutcome.ok)
    (hval : validate_csv_columns cols st = .ok ()) :
    ((process_csv_async cols st o nrows cs).countP Event.isComplete = 1
      ∧ (process_csv_async cols st o nrows cs).countP Event.isFailBatch = 0
      ∧ (applyEvents b (process_csv_async cols st o nrows cs)).status = .completed
      ∧ (applyEvents b (process_csv_async cols st o nrows cs)).failed_records =
          b.failed_records + nrows
      ∧ Event.complete nrows ∈ process_csv_async cols st o nrows cs)
    ∧ ((process_gdb_async o nrows cs).countP Event.isComplete = 1
      ∧ (process_gdb_async o nrows cs).countP Event.isFailBatch = 0
      ∧ (applyEvents b (process_gdb_async o nrows cs)).status = .completed
      ∧ (applyEvents b (process_gdb_async o nrows cs)).failed_records =
          b.failed_records + nrows
      ∧ Event.complete nrows ∈ process_gdb_async o nrows cs) := by
  rw [process_csv_async_ok cols st o nrows cs hval, process_gdb_async_eq]
  exact ⟨⟨countP_complete_processorRun numberCsv o nrows cs,
      countP_failBatch_processorRun numberCsv o nrows cs,
      status_processorRun numberCsv o nrows cs b,
      (processorRun_all_fail numberCsv o nrows cs b hcs hfail).1,
      (processorRun_all_fail numberCsv o nrows cs b hcs hfail).2⟩,
    ⟨countP_complete_processorRun numberGdb o nrows cs,
      countP_failBatch_processorRun numberGdb o nrows cs,
      status_processorRun numberGdb o nrows cs b,
      (processorRun_all_fail numberGdb o nrows cs b hcs hfail).1,
      (processorRun_all_fail numberGdb o nrows cs b hcs hfail).2⟩⟩

/-- Claim C6, witness: a 3-row RETR stream whose every row raises ends with
status completed and with 3 failed records on a fresh batch. -/
theorem C6_all_rows_fail_stream_completes_witness :
    (applyEvents (freshBatch "s" "RETR" "CSV")
        (process_csv_async ["A"] .RETR (fun _ => RowOutcome.exn) 3 2)).status =
      .completed
    ∧ (applyEvents (freshBatch "s" "RETR" "CSV")
        (process_csv_async ["A"] .RETR (fun _ => RowOutcome.exn) 3 2)).failed_records =
      (freshBatch "s" "RETR" "CSV").failed_records + 3 :=
  ⟨(C6_all_rows_fail_stream_completes ["A"] .RETR (fun _ => RowOutcome.exn) 3 2
      (freshBatch "s" "RETR" "CSV") (by decide)
      (fun _ => (by decide : RowOutcome.exn ≠ RowOutcome.ok)) rfl).1.2.2.1,
    (C6_all_rows_fail_stream_completes ["A"] .RETR (fun _ => RowOutcome.exn) 3 2
      (freshBatch "s" "RETR" "CSV") (by decide)
      (fun _ => (by decide : RowOutcome.exn ≠ RowOutcome.ok)) rfl).1.2.2.2.1⟩

/-- Claim C7.  `transform_to_wisconsin_crs` reprojects every geometry to
EPSG:3071 when the declared CRS differs from it, sets EPSG:3071 without
touching any geometry when no CRS is declared, and returns the input
unchanged when it is already EPSG:3071. -/
theorem C7_transform_to_wisconsin_crs_behaviour {G : Type}
    (reproject : String → String → G → G) (gdf : GeoDataFrame G) :
    (∀ c, gdf.crs = some c → c ≠ WISCONSIN_CRS →
      transform_to_wisconsin_crs reproject gdf =
        ⟨some WISCONSIN_CRS, gdf.geoms.map (reproject c WISCONSIN_CRS)⟩)
    ∧ (gdf.crs = none →
        transform_to_wisconsin_crs reproject gdf = ⟨some WISCONSIN_CRS, gdf.geoms⟩)
    ∧ (gdf.crs = some WISCONSIN_CRS →
        transform_to_wisconsin_crs reproject gdf = gdf) := by
  obtain ⟨crs, geoms⟩ := gdf
  refine ⟨?_, ?_, ?_⟩
  · intro c hc hne
    simp only at hc
    subst hc
    have hcond : ¬(c = WISCONSIN_CRS ∨ c = "EPSG:3071") := by
      rw [WISCONSIN_CRS] at hne ⊢
      simp [hne]
    simp only [transform_to_wisconsin_crs, GeoDataFrame.to_crs, if_neg hcond]
  · intro hc
    simp only at hc
    subst hc
    rfl
  · intro hc
    simp only at hc
    subst hc
    simp [transform_to_wisconsin_crs]

/-- Claim C7, witness: a one-geometry frame declared as EPSG:4326 is
reprojected (here with an abstract reprojection adding 1) and re-declared
as EPSG:3071. -/
theorem C7_transform_to_wisconsin_crs_behaviour_witness :
    transform_to_wisconsin_crs (fun _ _ n => n + 1)
        (⟨some "EPSG:4326", [7]⟩ : GeoDataFrame Nat) =
      ⟨some WISCONSIN_CRS, [8]⟩ := by
  rw [(C7_transform_to_wisconsin_crs_behaviour (fun _ _ n => n + 1)
      (⟨some "EPSG:4326", [7]⟩ : GeoDataFrame Nat)).1 "EPSG:4326" rfl (by decide)]
  decide

/-- Claim C8.  The per-row conversion keeps exactly the row's column names;
every converted value is either an explicit null or a non-empty string (an
NA or empty-string cell has become null before the Pydantic validation
step, which receives this mapping); and the `model_dump(exclude_none=True)`
serialization underlying the message's raw_data keeps only the record's
non-null fields, so raw_data contains no nulls. -/
theorem C8_row_normalization_raw_data (row : List (String × Cell))
    (fields : List (String × Option String)) :
    ((normalizeRow row).map Prod.fst = row.map Prod.fst)
    ∧ (∀ kv ∈ normalizeRow row, kv.2 = none ∨ ∃ s, kv.2 = some s ∧ s ≠ "")
    ∧ (∀ k c, (k, c) ∈ row → (c = .na ∨ c = .val "") → (k, none) ∈ normalizeRow row)
    ∧ (∀ kv ∈ modelDumpExcludeNone fields, kv.2 ≠ none ∧ kv ∈ fields) := by
  refine ⟨?_, ?_, ?_, ?_⟩
  · rw [normalizeRow, List.map_map]
    rfl
  · intro kv hkv
    rw [normalizeRow] at hkv
    obtain ⟨⟨k, c⟩, _, rfl⟩ := List.mem_map.mp hkv
    cases c with
    | na => exact Or.inl rfl
    | val s =>
      by_cases hs : s = ""
      · subst hs; exact Or.inl (by simp [normalizeCell])
      · exact Or.inr ⟨s, by simp [normalizeCell, hs], hs⟩
  · intro k c hmem hc
    have hcell : normalizeCell c = none := by
      rcases hc with rfl | rfl <;> simp [normalizeCell]
    rw [normalizeRow]
    have h2 := List.mem_map_of_mem
      (fun kv : String × Cell => (kv.1, normalizeCell kv.2)) hmem
    simpa [hcell] using h2
  · intro kv hkv
    rw [modelDumpExcludeNone] at hkv
    obtain ⟨hmem, hp⟩ := List.mem_filter.mp hkv
    exact ⟨by simpa [Option.isSome_iff_ne_none] using hp, hmem⟩

/-- Claim C8, witness: in a row with an NA cell, an empty-string cell and a
value cell, the NA column is normalized to an explicit null, and a
non-null field of a dumped record is indeed non-null. -/
theorem C8_row_normalization_raw_data_witness :
    ("A", (none : Option String)) ∈
      normalizeRow [("A", Cell.na), ("B", Cell.val ""), ("C", Cell.val "x")]
    ∧ (("u", (some "1" : Option String))).2 ≠ none :=
  ⟨(C8_row_normalization_raw_data
      [("A", Cell.na), ("B", Cell.val ""), ("C", Cell.val "x")]
      [("u", some "1"), ("v", none)]).2.2.1 "A" Cell.na (by decide) (Or.inl rfl),
    ((C8_row_normalization_raw_data
      [("A", Cell.na), ("B", Cell.val ""), ("C", Cell.val "x")]
      [("u", some "1"), ("v", none)]).2.2.2 ("u", some "1") (by decide)).1⟩

/-- Claim C9, counterexample.  The claim says every format-validation entry
point returns a boolean-plus-optional-reason pair distinguishing an empty
file, zero data rows, zero columns and a lower-level parse failure.  The
geodatabase entry point `validate_gdb_format` returns a bare boolean: its
whole return value for a `fiona.listlayers` failure equals its return value
for a zero-layer container, so no caller can tell those reasons apart. -/
theorem C9_gdb_validator_bare_bool_counterexample :
    validate_gdb_format (GdbPathState.listLayersError "boom") =
      validate_gdb_format (GdbPathState.layers [])
    ∧ validate_gdb_format (GdbPathState.layers []) = false := by
  decide

/-- Claim C9, amended.  The delimited-text entry point
`validate_csv_format` returns a valid/reason pair — a reason is present
exactly when the file is rejected — with distinct reasons for an empty
file, zero data rows, zero columns and a parse failure, and never raises
(it is a total function on the observed file states); the geodatabase entry
point `validate_gdb_format` never raises either but returns only a bare
boolean, true exactly for a readable container with at least one layer. -/
theorem C9_format_validators_amended :
    (∀ f : CsvFile,
      ((validate_csv_format f).1 = true ∧ (validate_csv_format f).2 = none)
      ∨ ((validate_csv_format f).1 = false ∧ (validate_csv_format f).2.isSome))
    ∧ (validate_csv_format ⟨0, .table 5 3⟩).2 = some "File is empty (0 bytes)"
    ∧ (validate_csv_format ⟨9, .table 0 3⟩).2 = some "CSV contains no data rows"
    ∧ (validate_csv_format ⟨9, .table 5 0⟩).2 = some "CSV contains no columns"
    ∧ (validate_csv_format ⟨9, .parserError "bad line"⟩).2 =
        some "Invalid CSV format: bad line"
    ∧ (["File is empty (0 bytes)", "CSV contains no data rows",
        "CSV contains no columns", "Invalid CSV format: bad line"].Pairwise (· ≠ ·))
    ∧ (∀ g, validate_gdb_format g = true ↔ ∃ ls, g = .layers ls ∧ ls ≠ []) := by
  refine ⟨?_, by decide, by decide, by decide, by decide, by decide, ?_⟩
  · intro f
    obtain ⟨sz, parse⟩ := f
    rw [validate_csv_format]
    by_cases hsz : sz = 0
    · simp [hsz]
    · cases parse with
      | table nr nc =>
        by_cases h1 : nr = 0
        · simp [hsz, h1]
        · by_cases h2 : nc = 0
          · simp [hsz, h1, h2]
          · simp [hsz, h1, h2]
      | emptyDataError => simp [hsz]
      | parserError m => simp [hsz]
      | otherError m => simp [hsz]
  · intro g
    cases g with
    | layers ls =>
      cases ls with
      | nil => simp [validate_gdb_format]
      | cons a as => simp [validate_gdb_format]
    | missing => simp [validate_gdb_format]
    | notDirectory => simp [validate_gdb_format]
    | listLayersError m => simp [validate_gdb_format]

/-- Claim C9, witness: a container with one layer is accepted by the
geodatabase entry point. -/
theorem C9_format_validators_amended_witness :
    validate_gdb_format (GdbPathState.layers ["layer1"]) = true :=
  ((C9_format_validators_amended).2.2.2.2.2.2
      (GdbPathState.layers ["layer1"])).mpr ⟨["layer1"], rfl, by decide⟩

/-- Claim C10.  `complete_batch` writes only status, completed_at and
processed_records — overwriting processed_records with the supplied total —
and `fail_batch` writes only status, completed_at and error, leaving all
four progress counters (and every other column) unchanged, so a failed
batch keeps the partial progress accumulated before the failure. -/
theorem C10_terminal_writes_frame (b : Batch) (total : Int) (now : Nat)
    (msg : String) :
    ((complete_batch b total now).status = .completed
      ∧ (complete_batch b total now).completed_at = some now
      ∧ (complete_batch b total now).processed_records = total
      ∧ (complete_batch b total now).new_records = b.new_records
      ∧ (complete_batch b total now).duplicate_records = b.duplicate_records
      ∧ (complete_batch b total now).failed_records = b.failed_records
      ∧ (complete_batch b total now).error = b.error
      ∧ (complete_batch b total now).total_records = b.total_records
      ∧ (complete_batch b total now).source_name = b.source_name
      ∧ (complete_batch b total now).source_type = b.source_type
      ∧ (complete_batch b total now).file_format = b.file_format
      ∧ (complete_batch b total now).file_size_bytes = b.file_size_bytes
      ∧ (complete_batch b total now).started_at = b.started_at)
    ∧ ((fail_batch b msg now).status = .failed
      ∧ (fail_batch b msg now).completed_at = some now
      ∧ (fail_batch b msg now).error = some msg
      ∧ (fail_batch b msg now).processed_records = b.processed_records
      ∧ (fail_batch b msg now).new_records = b.new_records
      ∧ (fail_batch b msg now).duplicate_records = b.duplicate_records
      ∧ (fail_batch b msg now).failed_records = b.failed_records
      ∧ (fail_batch b msg now).total_records = b.total_records
      ∧ (fail_batch b msg now).source_name = b.source_name
      ∧ (fail_batch b msg now).source_type = b.source_type
      ∧ (fail_batch b msg now).file_format = b.file_format
      ∧ (fail_batch b msg now).file_size_bytes = b.file_size_bytes
      ∧ (fail_batch b msg now).started_at = b.started_at) := by
  obtain ⟨⟩ := b
  refine ⟨⟨rfl, rfl, rfl, rfl, rfl, rfl, rfl, rfl, rfl, rfl, rfl, rfl, rfl⟩,
    ⟨rfl, rfl, rfl, rfl, rfl, rfl, rfl, rfl, rfl, rfl, rfl, rfl, rfl⟩⟩

end GenProp
